import Mathlib

/-!
Shallow embedding of the message-processing pipeline of this repository:
`src/shit_poster/pubsub_listener.py`, `src/shit_poster/main.py` and
`src/shit_poster/issue_poster.py`.

Modelling conventions, stated once:

* Python code that can raise is embedded with `PyResult`, carrying the
  exception's class name and message; a Python function that returns
  normally is embedded with a plain value.
* `message.data` (bytes) is embedded as the `String` obtained by UTF-8
  decoding; empty bytes become the empty string, and Python's truthiness
  test `if message.data:` becomes `data ≠ ""`.  A `UnicodeDecodeError`
  raised by `.decode("utf-8")` is folded into the `loads` parameter's
  failure outcome, since both raise inside the same `try` block.
* `json.loads` is Python standard-library code, not repository code, so it
  is a parameter (`loads`): the claims only depend on whether it returns a
  decoded value or raises.
* The github_issue module (`create_issue_from_message`, imported by
  `main.py`) is absent from the repository, so its per-message outcome is a
  parameter (`createIssue`): it returns an issue (carrying its number) or
  `None`, or raises.
* The external network calls of `issue_poster.py` (`Github.get_repo`,
  `Repository.create_issue`) are parameters (`getRepo`, `api`); the
  `ApiOutcome` type distinguishes a created issue, a `GithubException`
  (the only class the source catches), and an exception of any other
  class — e.g. a transport-level `requests` exception, which the
  source's `except GithubException` clause does not catch.
* Each `print(...)` becomes a trace event.  A print whose text reports an
  error or a failure (it begins with `Error`, `ERROR` or `Failed` in the
  source) is modelled as `Event.logError`; all other prints are
  `Event.log`.  Invoking the external publisher is marked with
  `Event.publish`.  Object `repr`s inside prints are abbreviated to the
  message id.
* A JSON object, the image of a Python `dict`, is a key/value list with
  the dict's (distinct-key) insertion order.
-/

namespace ShitPoster

/-- Result of running a piece of Python code: a value, or a raised
exception carrying its class name and message. -/
inductive PyResult (α : Type) where
  | ok (a : α)
  | exn (cls msg : String)

mutual

/-- Decoded JSON data, as produced by `json.loads`.  Numbers are modelled
as integers (no claim involves floats); `obj` field lists have the
distinct keys of the underlying Python dict, in insertion order.
(`JsonList`/`JsonFields` are inlined list types so that all recursion
over this data is structural, hence kernel-computable.) -/
inductive Json where
  | null
  | bool (b : Bool)
  | num (n : Int)
  | str (s : String)
  | arr (elems : JsonList)
  | obj (fields : JsonFields)

inductive JsonList where
  | nil
  | cons (hd : Json) (tl : JsonList)

inductive JsonFields where
  | nil
  | cons (key : String) (val : Json) (tl : JsonFields)

end

def isOkRes {α : Type} : PyResult α → Bool
  | PyResult.ok _ => true
  | PyResult.exn _ _ => false

def isExnRes {α : Type} : PyResult α → Bool
  | PyResult.ok _ => false
  | PyResult.exn _ _ => true

def isObjJson : Json → Bool
  | Json.obj _ => true
  | _ => false

/-- Python `type(x).__name__` for a decoded JSON value, as it appears in
`AttributeError` messages. -/
def pyTypeName : Json → String
  | Json.null => "NoneType"
  | Json.bool _ => "bool"
  | Json.num _ => "int"
  | Json.str _ => "str"
  | Json.arr _ => "list"
  | Json.obj _ => "dict"

def spaces (n : Nat) : String :=
  String.mk (List.replicate n ' ')

def hexDigit (n : Nat) : Char :=
  if n < 10 then Char.ofNat (48 + n) else Char.ofNat (87 + n)

def hex4 (n : Nat) : String :=
  String.mk [hexDigit (n / 4096 % 16), hexDigit (n / 256 % 16),
             hexDigit (n / 16 % 16), hexDigit (n % 16)]

/-- Escaping of one character inside a JSON string literal, as done by
`json.dumps` with its default `ensure_ascii=True` (characters beyond the
basic multilingual plane, which Python writes as surrogate pairs, are not
modelled; no input of any theorem contains one). -/
def jsonEscapeChar (c : Char) : String :=
  if c = '"' then "\\\""
  else if c = '\\' then "\\\\"
  else if c = '\n' then "\\n"
  else if c = '\r' then "\\r"
  else if c = '\t' then "\\t"
  else if c = Char.ofNat 8 then "\\b"
  else if c = Char.ofNat 12 then "\\f"
  else if c.toNat < 32 ∨ 127 ≤ c.toNat then "\\u" ++ hex4 c.toNat
  else String.singleton c

def jsonEscape (s : String) : String :=
  String.join (s.data.map jsonEscapeChar)

mutual

/-- `json.dumps(v, indent=2)` at nesting level `lvl` (so `2*lvl` spaces of
current indentation); with `indent` given, Python uses `",\n"` between
items and `": "` between a key and its value. -/
def dumpsV : Nat → Json → String
  | _, Json.null => "null"
  | _, Json.bool true => "true"
  | _, Json.bool false => "false"
  | _, Json.num n => toString n
  | _, Json.str s => "\"" ++ jsonEscape s ++ "\""
  | lvl, Json.arr elems =>
      match elems with
      | JsonList.nil => "[]"
      | JsonList.cons _ _ =>
          "[\n" ++ dumpsElems (lvl + 1) elems ++ "\n" ++ spaces (2 * lvl) ++ "]"
  | lvl, Json.obj fields =>
      match fields with
      | JsonFields.nil => "\x7b\x7d"
      | JsonFields.cons _ _ _ =>
          "\x7b\n" ++ dumpsFields (lvl + 1) fields ++ "\n" ++ spaces (2 * lvl) ++ "\x7d"

def dumpsElems : Nat → JsonList → String
  | _, JsonList.nil => ""
  | lvl, JsonList.cons x JsonList.nil => spaces (2 * lvl) ++ dumpsV lvl x
  | lvl, JsonList.cons x (JsonList.cons y ys) =>
      spaces (2 * lvl) ++ dumpsV lvl x ++ ",\n" ++ dumpsElems lvl (JsonList.cons y ys)

def dumpsFields : Nat → JsonFields → String
  | _, JsonFields.nil => ""
  | lvl, JsonFields.cons k v JsonFields.nil =>
      spaces (2 * lvl) ++ "\"" ++ jsonEscape k ++ "\": " ++ dumpsV lvl v
  | lvl, JsonFields.cons k v (JsonFields.cons k2 v2 gs) =>
      spaces (2 * lvl) ++ "\"" ++ jsonEscape k ++ "\": " ++ dumpsV lvl v
        ++ ",\n" ++ dumpsFields lvl (JsonFields.cons k2 v2 gs)

end

mutual

/-- Python `repr` of a decoded JSON value (used by `str` on containers).
String `repr` quoting with embedded quotes/escapes is not modelled; no
theorem input contains such a string. -/
def pyRepr : Json → String
  | Json.null => "None"
  | Json.bool true => "True"
  | Json.bool false => "False"
  | Json.num n => toString n
  | Json.str s => "'" ++ s ++ "'"
  | Json.arr xs => "[" ++ pyReprElems xs ++ "]"
  | Json.obj fs => "\x7b" ++ pyReprFields fs ++ "\x7d"

def pyReprElems : JsonList → String
  | JsonList.nil => ""
  | JsonList.cons x JsonList.nil => pyRepr x
  | JsonList.cons x (JsonList.cons y ys) =>
      pyRepr x ++ ", " ++ pyReprElems (JsonList.cons y ys)

def pyReprFields : JsonFields → String
  | JsonFields.nil => ""
  | JsonFields.cons k v JsonFields.nil => "'" ++ k ++ "': " ++ pyRepr v
  | JsonFields.cons k v (JsonFields.cons k2 v2 gs) =>
      "'" ++ k ++ "': " ++ pyRepr v ++ ", " ++ pyReprFields (JsonFields.cons k2 v2 gs)

end

/-- Python `str(x)` of a decoded JSON value, as interpolated by an
f-string. -/
def pyStr : Json → String
  | Json.str s => s
  | v => pyRepr v

/-- Python dict lookup on the fields of a decoded JSON object. -/
def fieldsLookup : JsonFields → String → Option Json
  | JsonFields.nil, _ => none
  | JsonFields.cons k v tl, key => if k == key then some v else fieldsLookup tl key

/-- Python `fields.get(key, dflt)` on the dict embedded as `fields`. -/
def dictGet (fields : JsonFields) (key : String) (dflt : Json) : Json :=
  match fieldsLookup fields key with
  | some v => v
  | none => dflt

/-- A delivered Pub/Sub message (`InboundMessage`): id, UTF-8 payload,
attribute mapping in iteration order. -/
structure Message where
  message_id : String
  data : String
  attributes : List (String × String)

/-- Derived ticket: issue title and body. -/
structure Ticket where
  title : String
  body : String

/-- One observable step of a message-processing callback: an
informational print, an error/failure print, the invocation of the
external issue publisher, `message.ack()`, or `message.nack()`. -/
inductive Event where
  | log (s : String)
  | logError (s : String)
  | publish (desc : String)
  | ack
  | nack

def isAck : Event → Bool
  | Event.ack => true
  | _ => false

def isNack : Event → Bool
  | Event.nack => true
  | _ => false

def isPublish : Event → Bool
  | Event.publish _ => true
  | _ => false

def isErrorLog : Event → Bool
  | Event.logError _ => true
  | _ => false

def ackCount (es : List Event) : Nat := es.countP isAck

def nackCount (es : List Event) : Nat := es.countP isNack

def publishCount (es : List Event) : Nat := es.countP isPublish

def errorLogCount (es : List Event) : Nat := es.countP isErrorLog

/-- The ticket-formatting step of `callback`
(`src/shit_poster/pubsub_listener.py` lines 52–65): title and body built
from the decoded payload and the message attributes.  `data.get(...)`
only exists on a dict, so a decoded payload of any other shape raises
`AttributeError` at the title line. -/
def formatTicket (data : Json) (attributes : List (String × String)) :
    PyResult Ticket :=
  match data with
  | Json.obj fields =>
      let issue_title := "PubSub Message: " ++ pyStr (dictGet fields "subject" (Json.str "New Message"))
      let issue_body :=
        "## PubSub Message Received\n\n"
        ++ "**Timestamp:** " ++ pyStr (dictGet fields "timestamp" (Json.str "N/A")) ++ "\n\n"
        ++ "### Message Content\n\n```json\n"
        ++ dumpsV 0 (Json.obj fields)
        ++ "\n```\n\n"
        ++ (if attributes.isEmpty then ""
            else "### Message Attributes\n\n"
              ++ String.join (attributes.map (fun kv => "* **" ++ kv.1 ++ ":** " ++ kv.2 ++ "\n")))
      PyResult.ok ⟨issue_title, issue_body⟩
  | other =>
      PyResult.exn "AttributeError"
        ("'" ++ pyTypeName other ++ "' object has no attribute 'get'")

/-- Environment slice read by `GitHubIssuePoster.__init__`
(`src/shit_poster/issue_poster.py`). -/
structure GhEnv where
  github_token : Option String
  github_repository : Option String

/-- Python truthiness of `os.getenv(...)`: `None` and `""` are falsy. -/
def truthy (o : Option String) : Bool :=
  match o with
  | none => false
  | some s => !(s == "")

/-- Outcome of the external `repo.create_issue(...)` call: a created
issue (number, url, echoed title), a raised `GithubException`, or a
raised exception of any other class (e.g. a transport-level `requests`
exception, which is not a `GithubException` subclass). -/
inductive ApiOutcome where
  | created (number : Nat) (url title : String)
  | githubExn (msg : String)
  | otherExn (cls msg : String)

/-- The dictionary returned by `GitHubIssuePoster.post_issue`: either the
success dict (`success: True` with number/url/title) or the failure dict
(`success: False` with the error string). -/
inductive PostIssueDict where
  | success (issue_number : Nat) (issue_url title : String)
  | failure (error : String)

/-- `GitHubIssuePoster.__init__` (`src/shit_poster/issue_poster.py` lines
20–39): raises `ValueError` when the token or repository is missing, and
wraps a `GithubException` from `get_repo` into a `ValueError`; an
exception of any other class propagates unchanged. -/
def GitHubIssuePoster_init (env : GhEnv) (getRepo : String → PyResult Unit) : PyResult Unit :=
  if !(truthy env.github_token) then
    PyResult.exn "ValueError" "GITHUB_TOKEN not found in .env file"
  else if !(truthy env.github_repository) then
    PyResult.exn "ValueError" "GITHUB_REPOSITORY not found in .env file"
  else
    match getRepo (env.github_repository.getD "") with
    | PyResult.ok _ => PyResult.ok ()
    | PyResult.exn cls m =>
        if cls == "GithubException" then
          PyResult.exn "ValueError"
            ("Error accessing repository '" ++ env.github_repository.getD "" ++ "': " ++ m)
        else PyResult.exn cls m

/-- `GitHubIssuePoster.post_issue` (`src/shit_poster/issue_poster.py`
lines 41–72): one `create_issue` call; `except GithubException` turns an
API-level rejection into the failure dict; an exception of any other
class is not caught and propagates.  `title`/`body` are the arguments of
the call; labels/assignees (defaulted to `[]`) play no role in any
claim. -/
def post_issue (api : ApiOutcome) (title body : String) : PyResult PostIssueDict :=
  match api with
  | ApiOutcome.created n url t => PyResult.ok (PostIssueDict.success n url t)
  | ApiOutcome.githubExn m => PyResult.ok (PostIssueDict.failure m)
  | ApiOutcome.otherExn cls m => PyResult.exn cls m

/-- `post_github_issue` (`src/shit_poster/issue_poster.py` lines
75–103): constructs the poster and posts; returns the success dict, or
`None` on a failure dict or on a `ValueError` (the only class its
`except` clause catches); prints are returned alongside. -/
def post_github_issue (env : GhEnv) (getRepo : String → PyResult Unit)
    (api : ApiOutcome) (title message : String) :
    List String × PyResult (Option PostIssueDict) :=
  match GitHubIssuePoster_init env getRepo with
  | PyResult.exn cls m =>
      if cls == "ValueError" then (["Error: " ++ m], PyResult.ok none)
      else ([], PyResult.exn cls m)
  | PyResult.ok _ =>
      match post_issue api title message with
      | PyResult.exn cls m =>
          if cls == "ValueError" then (["Error: " ++ m], PyResult.ok none)
          else ([], PyResult.exn cls m)
      | PyResult.ok (PostIssueDict.success n url t) =>
          (["Issue #" ++ toString n ++ " created successfully!",
            "Title: " ++ t, "URL: " ++ url],
           PyResult.ok (some (PostIssueDict.success n url t)))
      | PyResult.ok (PostIssueDict.failure err) =>
          (["Failed to create issue: " ++ err], PyResult.ok none)

/-- The message-processing callback of
`src/shit_poster/pubsub_listener.py` (lines 36–82), as the trace of
events one delivery produces.  The whole body sits inside
`try ... except Exception`, so every raised fault of the modelled
exception classes is caught and printed; note that `message.ack()` is
the last statement of the `try` block, so a message whose processing
raised is neither acked nor nacked. -/
def callback (loads : String → PyResult Json) (env : GhEnv)
    (getRepo : String → PyResult Unit) (api : ApiOutcome) (m : Message) :
    List Event :=
  let recv := [Event.log ("Received message: " ++ m.message_id)]
  if m.data = "" then recv ++ [Event.ack]
  else
    match loads m.data with
    | PyResult.exn _ emsg =>
        recv ++ [Event.logError ("Error processing message: " ++ emsg)]
    | PyResult.ok data =>
      let ev1 := recv ++ [Event.log ("Message data: " ++ dumpsV 0 data)]
      match formatTicket data m.attributes with
      | PyResult.exn _ emsg =>
          ev1 ++ [Event.logError ("Error processing message: " ++ emsg)]
      | PyResult.ok t =>
        let ev2 := ev1 ++ [Event.log ("Creating GitHub issue with title: " ++ t.title),
                           Event.publish t.title]
        let pg := post_github_issue env getRepo api t.title t.body
        let ev3 := ev2 ++ pg.1.map Event.log
        match pg.2 with
        | PyResult.exn _ emsg =>
            ev3 ++ [Event.logError ("Error processing message: " ++ emsg)]
        | PyResult.ok result =>
          match result with
          | some (PostIssueDict.success n _ _) =>
              ev3 ++ [Event.log ("Successfully created GitHub issue #" ++ toString n),
                      Event.ack]
          | _ =>
              ev3 ++ [Event.logError "Failed to create GitHub issue", Event.ack]

/-- `process_message` of `src/shit_poster/main.py` (lines 14–48), as the
trace of events one delivery produces.  `create_issue_from_message`
comes from the absent github_issue module, so its outcome for this
message's data is the parameter `createIssue` (an issue carrying its
number, or `None`, or a raised exception).  Every branch — empty
payload, decode error, publish success, publish failure, raised
exception — ends in `message.ack()`. -/
def process_message (loads : String → PyResult Json)
    (createIssue : Json → PyResult (Option Nat)) (m : Message) : List Event :=
  let recv := [Event.log ("Received message ID: " ++ m.message_id)]
  if m.data = "" then recv ++ [Event.log "Received empty message", Event.ack]
  else
    match loads m.data with
    | PyResult.exn _ emsg =>
        recv ++ [Event.logError ("Error processing message: " ++ emsg), Event.ack]
    | PyResult.ok data =>
      let ev1 := recv ++ [Event.log ("Message data: " ++ dumpsV 0 data),
                          Event.publish "create_issue_from_message"]
      match createIssue data with
      | PyResult.exn _ emsg =>
          ev1 ++ [Event.logError ("Error processing message: " ++ emsg), Event.ack]
      | PyResult.ok (some n) =>
          ev1 ++ [Event.log ("Successfully created issue #" ++ toString n), Event.ack]
      | PyResult.ok none =>
          ev1 ++ [Event.logError "Failed to create issue from message data", Event.ack]

/-- Environment slice read by `main` (`src/shit_poster/main.py`). -/
structure MainEnv where
  project_id : Option String
  subscription_id : Option String
  github_token : Option String

/-- Outcome of `setup_subscriber` plus `subscriber.subscribe` (the code
inside `main`'s outer `try` before the stream is awaited). -/
inductive SetupOutcome where
  | ok
  | exn (msg : String)

/-- Outcome of awaiting `streaming_pull_future.result()`: interrupted by
the user (`KeyboardInterrupt`), failed with a stream exception, or
returned. -/
inductive RunOutcome where
  | interrupted
  | streamExn (msg : String)
  | completed

/-- What a run of `main` produced: its prints, the process exit code
(`sys.exit(1)` or falling off the end with code 0), and whether the
listener was started (the subscription established). -/
structure MainResult where
  logs : List String
  exitCode : Nat
  listenerStarted : Bool

/-- `main` of `src/shit_poster/main.py` (lines 50–103): validates
configuration (missing `PROJECT_ID`/`SUBSCRIPTION_ID` exit with code 1;
missing `GITHUB_TOKEN` only warns), then subscribes; a failure to
establish the subscription hits the outer `except` and exits 1; once
listening, interrupt / stream error / clean return all fall through to
`print("Listener stopped")` and exit code 0. -/
def main (env : MainEnv) (setup : SetupOutcome) (run : RunOutcome) : MainResult :=
  let l0 := ["Loading configuration from .env file..."]
  if !(truthy env.project_id) then
    ⟨l0 ++ ["ERROR: PROJECT_ID must be specified in .env file"], 1, false⟩
  else if !(truthy env.subscription_id) then
    ⟨l0 ++ ["ERROR: SUBSCRIPTION_ID must be specified in .env file"], 1, false⟩
  else
    let l1 := l0 ++
      (if !(truthy env.github_token) then
        ["WARNING: GITHUB_TOKEN not found in .env file. GitHub issue creation will fail."]
       else [])
    let l2 := l1 ++ ["Starting listener for project: " ++ env.project_id.getD "",
                     "Subscription: " ++ env.subscription_id.getD ""]
    match setup with
    | SetupOutcome.exn m => ⟨l2 ++ ["ERROR: " ++ m], 1, false⟩
    | SetupOutcome.ok =>
        let l3 := l2 ++ ["Listening for messages on <subscription path>..."]
        let l4 :=
          match run with
          | RunOutcome.interrupted => l3 ++ ["Listener stopped by user"]
          | RunOutcome.streamExn m => l3 ++ ["Listening stopped due to exception: " ++ m]
          | RunOutcome.completed => l3
        ⟨l4 ++ ["Listener stopped"], 0, true⟩

/-! Concrete inputs and helper functions used by the theorems below. -/

/-- Bool substring helper: does `s` begin with `pat`? -/
def charsBeginWith : List Char → List Char → Bool
  | [], _ => true
  | _ :: _, [] => false
  | c :: cs, d :: ds => (c == d) && charsBeginWith cs ds

/-- Bool substring helper: does `s` contain `pat` contiguously? -/
def charsContain : List Char → List Char → Bool
  | pat, [] => charsBeginWith pat []
  | pat, d :: ds => charsBeginWith pat (d :: ds) || charsContain pat ds

/-- `pat in s` on Python strings: contiguous substring containment. -/
def strContains (s pat : String) : Bool := charsContain pat.data s.data

def ticketTitle : PyResult Ticket → Option String
  | PyResult.ok t => some t.title
  | PyResult.exn _ _ => none

def okTicketD : PyResult Ticket → Ticket
  | PyResult.ok t => t
  | PyResult.exn _ _ => ⟨"", ""⟩

/-- A `json.loads` behaviour that raises on every input, as it does on a
payload that is not valid JSON (message and class are those CPython
raises on the payload `b"not json"`). -/
def loadsFail : String → PyResult Json :=
  fun _ => PyResult.exn "json.decoder.JSONDecodeError" "Expecting value: line 1 column 1 (char 0)"

def goodEnv : GhEnv := ⟨some "ghp-token", some "owner/repo"⟩

def envNoToken : GhEnv := ⟨none, some "owner/repo"⟩

def goodRepo : String → PyResult Unit := fun _ => PyResult.ok ()

def apiOk : ApiOutcome :=
  ApiOutcome.created 42 "https://github.com/owner/repo/issues/42" "PubSub Message: disk full"

def msgBad : Message := ⟨"msg-1", "not json", [("severity", "high")]⟩

def msgEmpty : Message := ⟨"msg-2", "", []⟩

/-- The decoded payload of the spec's concrete scenario:
`{"subject":"disk full","timestamp":"2024-01-01T00:00:00Z"}`. -/
def fields9 : JsonFields :=
  JsonFields.cons "subject" (Json.str "disk full")
    (JsonFields.cons "timestamp" (Json.str "2024-01-01T00:00:00Z") JsonFields.nil)

def payload9 : Json := Json.obj fields9

def attrs9 : List (String × String) := [("severity", "high")]

/-- The ticket the formatter produces for the concrete scenario. -/
def ticket9 : Ticket := okTicketD (formatTicket payload9 attrs9)

def msg9 : Message := ⟨"msg-9", "json9", attrs9⟩

/-- A `json.loads` behaviour that decodes the concrete scenario's
payload. -/
def loads9 : String → PyResult Json := fun _ => PyResult.ok payload9

theorem countP_logs_zero (p : Event → Bool) (hp : ∀ s, p (Event.log s) = false) :
    ∀ ss : List String, (ss.map Event.log).countP p = 0 := by
  intro ss
  induction ss with
  | nil => rfl
  | cons s t ih => simp [List.countP_cons, hp, ih]

theorem ackCount_logs (ss : List String) : (ss.map Event.log).countP isAck = 0 :=
  countP_logs_zero isAck (fun _ => rfl) ss

theorem nackCount_logs (ss : List String) : (ss.map Event.log).countP isNack = 0 :=
  countP_logs_zero isNack (fun _ => rfl) ss

theorem publishCount_logs (ss : List String) : (ss.map Event.log).countP isPublish = 0 :=
  countP_logs_zero isPublish (fun _ => rfl) ss

theorem errorLogCount_logs (ss : List String) : (ss.map Event.log).countP isErrorLog = 0 :=
  countP_logs_zero isErrorLog (fun _ => rfl) ss

/-- Did `post_github_issue` return the success dictionary (rather than
`None` or an uncaught exception)? -/
def returnsDict : List String × PyResult (Option PostIssueDict) → Bool
  | (_, PyResult.ok (some _)) => true
  | _ => false

def apiCreated : ApiOutcome → Bool
  | ApiOutcome.created _ _ _ => true
  | _ => false

/-- Did `GitHubIssuePoster.__init__` succeed? -/
def initOk (env : GhEnv) (getRepo : String → PyResult Unit) : Bool :=
  isOkRes (GitHubIssuePoster_init env getRepo)

/-! Claim theorems. -/

/-- C3 counterexample: on the decoded payload with subject
`"disk full"`, the formatted title is `"PubSub Message: disk full"`,
not `"Event: " ++ "disk full"` as the claim states. -/
theorem C3_counterexample :
    ticketTitle (formatTicket payload9 attrs9) = some "PubSub Message: disk full" ∧
    ticketTitle (formatTicket payload9 attrs9) ≠ some ("Event: " ++ "disk full") := by
  constructor
  · rfl
  · intro h
    simp [ticketTitle, formatTicket, payload9, dictGet, fieldsLookup, pyStr] at h

/-- C3 (amended): for every object-shaped decoded payload, the ticket
title equals `"PubSub Message: "` concatenated with the payload's
subject, and when the subject key is absent the title uses the fixed
fallback literal `"New Message"` in place of the subject.  (The claim's
prefix `"Event: "` does not occur in the code.) -/
theorem C3_theorem (fields : JsonFields) (attrs : List (String × String)) (s : String) :
    (fieldsLookup fields "subject" = some (Json.str s) →
      ticketTitle (formatTicket (Json.obj fields) attrs) = some ("PubSub Message: " ++ s)) ∧
    (fieldsLookup fields "subject" = none →
      ticketTitle (formatTicket (Json.obj fields) attrs) = some "PubSub Message: New Message") := by
  constructor <;> intro h <;> simp [ticketTitle, formatTicket, dictGet, h, pyStr]

/-- C3 witness: the amended statement evaluated on the concrete
scenario's payload (subject present) and on the empty object (subject
absent). -/
theorem C3_witness :
    ticketTitle (formatTicket (Json.obj fields9) attrs9) = some ("PubSub Message: " ++ "disk full") ∧
    ticketTitle (formatTicket (Json.obj JsonFields.nil) []) = some "PubSub Message: New Message" :=
  ⟨(C3_theorem fields9 attrs9 "disk full").1 rfl,
   (C3_theorem JsonFields.nil [] "").2 rfl⟩

/-- C4 counterexample: on the decoded payload `[]` (valid JSON that is
not an object), the formatting step raises `AttributeError` — Python's
`data.get(...)` only exists on dicts — instead of degrading to fallback
text as the claim states. -/
theorem C4_counterexample :
    formatTicket (Json.arr JsonList.nil) [] =
      PyResult.exn "AttributeError" "'list' object has no attribute 'get'" := rfl

/-- C4 (amended): the formatting step is total exactly on object-shaped
decoded payloads: for every attribute mapping it succeeds (degrading
missing `subject`/`timestamp` to fallback text) iff the decoded payload
is a JSON object, and raises `AttributeError` for any other decoded
shape (array, string, number, boolean, null). -/
theorem C4_theorem (data : Json) (attrs : List (String × String)) :
    isOkRes (formatTicket data attrs) = isObjJson data := by
  cases data <;> rfl

/-- C8: ticket formatting is deterministic and idempotent — two runs of
the formatting step on the same decoded payload and attribute mapping
yield byte-identical title and body (the formatter is a pure function of
its two inputs: no timestamps or randomness occur in it). -/
theorem C8_theorem (data : Json) (attrs : List (String × String)) (t1 t2 : Ticket)
    (h1 : formatTicket data attrs = PyResult.ok t1)
    (h2 : formatTicket data attrs = PyResult.ok t2) :
    t1.title = t2.title ∧ t1.body = t2.body := by
  rw [h1] at h2
  injection h2 with h
  rw [h]
  exact ⟨rfl, rfl⟩

/-- C8 witness: the determinism statement evaluated at the concrete
scenario's payload and attributes. -/
theorem C8_witness : ticket9.title = ticket9.title ∧ ticket9.body = ticket9.body :=
  C8_theorem payload9 attrs9 ticket9 ticket9 rfl rfl

/-- C9 counterexample: for the concrete scenario payload with attribute
`severity=high`, the body does not contain the substring
`"severity: high"` — the bullet the code emits is
`"* **severity:** high"` (markdown bold), so the claimed bullet text is
not present verbatim. -/
theorem C9_counterexample :
    strContains ticket9.body "severity: high" = false ∧
    strContains ticket9.body "severity" = true := by
  constructor <;> decide

/-- C9 (amended): for the raw payload
`{"subject":"disk full","timestamp":"2024-01-01T00:00:00Z"}` with
attribute `severity=high`, the body contains both values verbatim, the
timestamp line, the fenced JSON block with the full payload, and the
severity bullet — whose literal text is `"* **severity:** high"`
(rendering as bold `severity: high`), not the plain `"severity: high"`
of the claim. -/
theorem C9_theorem :
    strContains ticket9.body "disk full" = true ∧
    strContains ticket9.body "2024-01-01T00:00:00Z" = true ∧
    strContains ticket9.body "**Timestamp:** 2024-01-01T00:00:00Z" = true ∧
    strContains ticket9.body ("```json\n" ++ dumpsV 0 payload9 ++ "\n```") = true ∧
    strContains ticket9.body "* **severity:** high" = true := by
  refine ⟨?_, ?_, ?_, ?_, ?_⟩ <;> decide

/-- C5 counterexample: a raised exception whose class is not
`GithubException` — e.g. a transport-level `requests` connection error —
propagates uncaught past `post_issue` (and past `post_github_issue`,
whose `except` clause only catches `ValueError`), instead of yielding a
Failure result as the claim states for "any transport error". -/
theorem C5_counterexample :
    post_issue (ApiOutcome.otherExn "requests.exceptions.ConnectionError" "Connection aborted.")
        "t" "b"
      = PyResult.exn "requests.exceptions.ConnectionError" "Connection aborted." ∧
    isOkRes (post_issue
        (ApiOutcome.otherExn "requests.exceptions.ConnectionError" "Connection aborted.") "t" "b")
      = false ∧
    (post_github_issue goodEnv goodRepo
        (ApiOutcome.otherExn "requests.exceptions.ConnectionError" "Connection aborted.") "t" "b").2
      = PyResult.exn "requests.exceptions.ConnectionError" "Connection aborted." :=
  ⟨rfl, rfl, rfl⟩

/-- C5 (amended): an API-level rejection or authentication error raised
as a `GithubException` yields the Failure dictionary carrying the
exception's human-readable text, and a successful call yields the
success dictionary; but an exception of any other class (such as a
transport-level connection error) propagates uncaught past `post_issue`
and — unless it is a `ValueError` — past `post_github_issue` as well. -/
theorem C5_theorem (reason cls m t b url tt : String) (n : Nat)
    (hcls : cls ≠ "ValueError") :
    post_issue (ApiOutcome.githubExn reason) t b
      = PyResult.ok (PostIssueDict.failure reason) ∧
    post_issue (ApiOutcome.created n url tt) t b
      = PyResult.ok (PostIssueDict.success n url tt) ∧
    post_issue (ApiOutcome.otherExn cls m) t b = PyResult.exn cls m ∧
    (post_github_issue goodEnv goodRepo (ApiOutcome.otherExn cls m) t b).2
      = PyResult.exn cls m := by
  refine ⟨rfl, rfl, rfl, ?_⟩
  simp [post_github_issue, GitHubIssuePoster_init, goodEnv, goodRepo, truthy, post_issue,
        beq_iff_eq, hcls]

/-- C5 witness: the amended statement evaluated at a concrete rejection
reason, a concrete created issue, and a concrete connection-error
class. -/
theorem C5_witness :
    post_issue (ApiOutcome.githubExn "rate limited") "t" "b"
      = PyResult.ok (PostIssueDict.failure "rate limited") ∧
    post_issue (ApiOutcome.created 42 "u" "tt") "t" "b"
      = PyResult.ok (PostIssueDict.success 42 "u" "tt") ∧
    post_issue (ApiOutcome.otherExn "ConnectionError" "boom") "t" "b"
      = PyResult.exn "ConnectionError" "boom" ∧
    (post_github_issue goodEnv goodRepo (ApiOutcome.otherExn "ConnectionError" "boom") "t" "b").2
      = PyResult.exn "ConnectionError" "boom" :=
  C5_theorem "rate limited" "ConnectionError" "boom" "t" "b" "u" "tt" 42 (by decide)

/-- C10: `post_github_issue` returns the publisher's result dictionary
exactly when the constructor succeeded and the create-issue call
created an issue; with missing `GITHUB_TOKEN` configuration
(`ValueError` from the constructor) and with an API-level rejection it
returns `None` in both cases — the identical value, so the caller cannot
distinguish a configuration error from a publish failure from the
return value. -/
theorem C10_theorem (env : GhEnv) (getRepo : String → PyResult Unit) (api : ApiOutcome)
    (t b reason : String) :
    returnsDict (post_github_issue env getRepo api t b)
      = (initOk env getRepo && apiCreated api) ∧
    (post_github_issue envNoToken getRepo api t b).2 = PyResult.ok none ∧
    (post_github_issue goodEnv goodRepo (ApiOutcome.githubExn reason) t b).2
      = PyResult.ok none ∧
    (post_github_issue envNoToken getRepo api t b).2
      = (post_github_issue goodEnv goodRepo (ApiOutcome.githubExn reason) t b).2 := by
  refine ⟨?_, rfl, rfl, rfl⟩
  unfold returnsDict post_github_issue initOk
  cases h : GitHubIssuePoster_init env getRepo with
  | exn cls msg =>
      by_cases hv : cls = "ValueError" <;>
        simp [isOkRes, beq_iff_eq, hv]
  | ok u =>
      cases api with
      | created n url tt => simp [post_issue, isOkRes, apiCreated]
      | githubExn m2 => simp [post_issue, isOkRes, apiCreated]
      | otherExn cls2 m2 =>
          by_cases hv : cls2 = "ValueError" <;>
            simp [post_issue, isOkRes, apiCreated, beq_iff_eq, hv]

/-- C1 counterexample: on a message whose payload fails to decode,
`callback` of `pubsub_listener.py` (one of the two message processors
the claim covers) emits its one logged error but does NOT acknowledge:
`message.ack()` is inside the `try` block after `json.loads`, so the
decode exception skips it. -/
theorem C1_counterexample :
    msgBad.data ≠ "" ∧
    loadsFail msgBad.data
      = PyResult.exn "json.decoder.JSONDecodeError" "Expecting value: line 1 column 1 (char 0)" ∧
    ackCount (callback loadsFail goodEnv goodRepo apiOk msgBad) = 0 ∧
    errorLogCount (callback loadsFail goodEnv goodRepo apiOk msgBad) = 1 :=
  ⟨by decide, rfl, rfl, rfl⟩

/-- C1 (amended): for every message whose non-empty payload fails to
decode, `process_message` of `main.py` yields Ack with exactly one
logged error and no Nack; `callback` of `pubsub_listener.py` emits
exactly one logged error and yields neither Ack nor Nack — the message
is simply never acknowledged (left to the broker's redelivery
deadline).  In both, the fault is caught by `except Exception` — no
uncaught fault escapes the message's processing unit (in this embedding
both processors totally return a trace). -/
theorem C1_theorem (loads : String → PyResult Json)
    (createIssue : Json → PyResult (Option Nat)) (env : GhEnv)
    (getRepo : String → PyResult Unit) (api : ApiOutcome) (m : Message)
    (cls emsg : String)
    (hne : m.data ≠ "") (hdec : loads m.data = PyResult.exn cls emsg) :
    ackCount (process_message loads createIssue m) = 1 ∧
    nackCount (process_message loads createIssue m) = 0 ∧
    errorLogCount (process_message loads createIssue m) = 1 ∧
    ackCount (callback loads env getRepo api m) = 0 ∧
    nackCount (callback loads env getRepo api m) = 0 ∧
    errorLogCount (callback loads env getRepo api m) = 1 := by
  simp [process_message, callback, hne, hdec, ackCount, nackCount, errorLogCount,
        List.countP_cons, List.countP_append, isAck, isNack, isErrorLog]

/-- C1 witness: the amended statement evaluated on the concrete
non-JSON payload `"not json"`. -/
theorem C1_witness :
    ackCount (process_message loadsFail (fun _ => PyResult.ok none) msgBad) = 1 ∧
    nackCount (process_message loadsFail (fun _ => PyResult.ok none) msgBad) = 0 ∧
    errorLogCount (process_message loadsFail (fun _ => PyResult.ok none) msgBad) = 1 ∧
    ackCount (callback loadsFail goodEnv goodRepo apiOk msgBad) = 0 ∧
    nackCount (callback loadsFail goodEnv goodRepo apiOk msgBad) = 0 ∧
    errorLogCount (callback loadsFail goodEnv goodRepo apiOk msgBad) = 1 :=
  C1_theorem loadsFail (fun _ => PyResult.ok none) goodEnv goodRepo apiOk msgBad
    "json.decoder.JSONDecodeError" "Expecting value: line 1 column 1 (char 0)"
    (by decide) rfl

/-- C2: for every publish attempt that returns a failure result — for
`callback`, `post_github_issue` returning `None`; for `process_message`,
`create_issue_from_message` returning `None` — the processor still
yields Ack (and never Nack). -/
theorem C2_theorem (loads : String → PyResult Json)
    (createIssue : Json → PyResult (Option Nat)) (env : GhEnv)
    (getRepo : String → PyResult Unit) (api : ApiOutcome) (m : Message)
    (data : Json) (t : Ticket)
    (hne : m.data ≠ "")
    (hdec : loads m.data = PyResult.ok data)
    (hfmt : formatTicket data m.attributes = PyResult.ok t)
    (hpub : (post_github_issue env getRepo api t.title t.body).2 = PyResult.ok none)
    (hci : createIssue data = PyResult.ok none) :
    ackCount (callback loads env getRepo api m) = 1 ∧
    nackCount (callback loads env getRepo api m) = 0 ∧
    ackCount (process_message loads createIssue m) = 1 ∧
    nackCount (process_message loads createIssue m) = 0 := by
  simp [callback, process_message, hne, hdec, hfmt, hpub, hci,
        ackCount, nackCount, List.countP_cons, List.countP_append,
        isAck, isNack, ackCount_logs, nackCount_logs]

/-- C2 witness: the statement evaluated on the concrete scenario payload
with the tracker rejecting the request (`GithubException`, so
`post_github_issue` returns `None`) and `create_issue_from_message`
returning `None`. -/
theorem C2_witness :
    ackCount (callback loads9 goodEnv goodRepo (ApiOutcome.githubExn "rate limited") msg9) = 1 ∧
    nackCount (callback loads9 goodEnv goodRepo (ApiOutcome.githubExn "rate limited") msg9) = 0 ∧
    ackCount (process_message loads9 (fun _ => PyResult.ok none) msg9) = 1 ∧
    nackCount (process_message loads9 (fun _ => PyResult.ok none) msg9) = 0 :=
  C2_theorem loads9 (fun _ => PyResult.ok none) goodEnv goodRepo
    (ApiOutcome.githubExn "rate limited") msg9 payload9 ticket9
    (by decide) rfl rfl rfl rfl

/-- C6 counterexample: on the empty-payload message, `callback`'s whole
trace is one informational print plus the Ack — no decode error is
logged (the `if message.data:` guard just skips decoding) — and
`process_message` logs only the informational `"Received empty
message"`; the claim's "logs a decode error" holds for neither. -/
theorem C6_counterexample :
    msgEmpty.data = "" ∧
    callback loadsFail goodEnv goodRepo apiOk msgEmpty
      = [Event.log "Received message: msg-2", Event.ack] ∧
    errorLogCount (callback loadsFail goodEnv goodRepo apiOk msgEmpty) = 0 ∧
    process_message loadsFail (fun _ => PyResult.ok none) msgEmpty
      = [Event.log "Received message ID: msg-2", Event.log "Received empty message",
         Event.ack] ∧
    errorLogCount (process_message loadsFail (fun _ => PyResult.ok none) msgEmpty) = 0 :=
  ⟨rfl, rfl, rfl, rfl, rfl⟩

/-- C6 (amended): for every message with empty payload bytes, both
processors acknowledge exactly once and never invoke the publisher, but
neither logs a decode error: `callback` prints nothing beyond its
arrival line, and `process_message` prints the informational
`"Received empty message"`. -/
theorem C6_theorem (loads : String → PyResult Json)
    (createIssue : Json → PyResult (Option Nat)) (env : GhEnv)
    (getRepo : String → PyResult Unit) (api : ApiOutcome) (m : Message)
    (hempty : m.data = "") :
    callback loads env getRepo api m
      = [Event.log ("Received message: " ++ m.message_id), Event.ack] ∧
    process_message loads createIssue m
      = [Event.log ("Received message ID: " ++ m.message_id),
         Event.log "Received empty message", Event.ack] ∧
    ackCount (callback loads env getRepo api m) = 1 ∧
    publishCount (callback loads env getRepo api m) = 0 ∧
    errorLogCount (callback loads env getRepo api m) = 0 ∧
    ackCount (process_message loads createIssue m) = 1 ∧
    publishCount (process_message loads createIssue m) = 0 ∧
    errorLogCount (process_message loads createIssue m) = 0 := by
  simp [callback, process_message, hempty, ackCount, publishCount, errorLogCount,
        List.countP_cons, isAck, isPublish, isErrorLog]

/-- C6 witness: the amended statement evaluated on the concrete
empty-payload message. -/
theorem C6_witness :
    callback loadsFail goodEnv goodRepo apiOk msgEmpty
      = [Event.log ("Received message: " ++ "msg-2"), Event.ack] ∧
    process_message loadsFail (fun _ => PyResult.ok none) msgEmpty
      = [Event.log ("Received message ID: " ++ "msg-2"),
         Event.log "Received empty message", Event.ack] ∧
    ackCount (callback loadsFail goodEnv goodRepo apiOk msgEmpty) = 1 ∧
    publishCount (callback loadsFail goodEnv goodRepo apiOk msgEmpty) = 0 ∧
    errorLogCount (callback loadsFail goodEnv goodRepo apiOk msgEmpty) = 0 ∧
    ackCount (process_message loadsFail (fun _ => PyResult.ok none) msgEmpty) = 1 ∧
    publishCount (process_message loadsFail (fun _ => PyResult.ok none) msgEmpty) = 0 ∧
    errorLogCount (process_message loadsFail (fun _ => PyResult.ok none) msgEmpty) = 0 :=
  C6_theorem loadsFail (fun _ => PyResult.ok none) goodEnv goodRepo apiOk msgEmpty rfl

def envMain : MainEnv := ⟨some "proj", some "sub", some "tok"⟩

def envMainNoPid : MainEnv := ⟨none, some "sub", some "tok"⟩

def envMainNoSid : MainEnv := ⟨some "proj", none, some "tok"⟩

def envMainNoTok : MainEnv := ⟨some "proj", some "sub", none⟩

def githubWarning : String :=
  "WARNING: GITHUB_TOKEN not found in .env file. GitHub issue creation will fail."

/-- C7: `main` validates configuration before starting: a missing (or
empty) `PROJECT_ID` or `SUBSCRIPTION_ID` exits with code 1 without
starting the listener; a missing `GITHUB_TOKEN` (the tracker
credential) only prints a warning and the listener still starts; the
exit code is 0 on normal shutdown (user interrupt, clean stop — and
indeed also a stream fault, which falls through the inner `except`),
and 1 when the subscription could not be established. -/
theorem C7_theorem (env : MainEnv) (setup : SetupOutcome) (run : RunOutcome) (m : String) :
    (truthy env.project_id = false →
      (main env setup run).exitCode = 1 ∧ (main env setup run).listenerStarted = false) ∧
    (truthy env.project_id = true → truthy env.subscription_id = false →
      (main env setup run).exitCode = 1 ∧ (main env setup run).listenerStarted = false) ∧
    (truthy env.project_id = true → truthy env.subscription_id = true →
      truthy env.github_token = false →
      (main env SetupOutcome.ok run).listenerStarted = true ∧
      githubWarning ∈ (main env SetupOutcome.ok run).logs ∧
      (main env SetupOutcome.ok run).exitCode = 0) ∧
    (truthy env.project_id = true → truthy env.subscription_id = true →
      (main env SetupOutcome.ok RunOutcome.interrupted).exitCode = 0 ∧
      (main env SetupOutcome.ok RunOutcome.completed).exitCode = 0 ∧
      (main env SetupOutcome.ok (RunOutcome.streamExn m)).exitCode = 0) ∧
    (truthy env.project_id = true → truthy env.subscription_id = true →
      (main env (SetupOutcome.exn m) run).exitCode = 1 ∧
      (main env (SetupOutcome.exn m) run).listenerStarted = false) := by
  refine ⟨?_, ?_, ?_, ?_, ?_⟩
  · intro h1
    simp [main, h1]
  · intro h1 h2
    simp [main, h1, h2]
  · intro h1 h2 h3
    refine ⟨by simp [main, h1, h2], ?_, by simp [main, h1, h2]⟩
    cases run <;> simp [main, h1, h2, h3, githubWarning]
  · intro h1 h2
    refine ⟨by simp [main, h1, h2], by simp [main, h1, h2], by simp [main, h1, h2]⟩
  · intro h1 h2
    simp [main, h1, h2]

/-- C7 witness: the statement evaluated on concrete environments — one
missing the project id, one missing the subscription id, one missing
only the token, one complete — with concrete setup and run outcomes. -/
theorem C7_witness :
    ((main envMainNoPid SetupOutcome.ok RunOutcome.interrupted).exitCode = 1 ∧
     (main envMainNoPid SetupOutcome.ok RunOutcome.interrupted).listenerStarted = false) ∧
    ((main envMainNoSid SetupOutcome.ok RunOutcome.interrupted).exitCode = 1 ∧
     (main envMainNoSid SetupOutcome.ok RunOutcome.interrupted).listenerStarted = false) ∧
    ((main envMainNoTok SetupOutcome.ok RunOutcome.interrupted).listenerStarted = true ∧
     githubWarning ∈ (main envMainNoTok SetupOutcome.ok RunOutcome.interrupted).logs ∧
     (main envMainNoTok SetupOutcome.ok RunOutcome.interrupted).exitCode = 0) ∧
    ((main envMain SetupOutcome.ok RunOutcome.interrupted).exitCode = 0 ∧
     (main envMain SetupOutcome.ok RunOutcome.completed).exitCode = 0 ∧
     (main envMain SetupOutcome.ok (RunOutcome.streamExn "stream died")).exitCode = 0) ∧
    ((main envMain (SetupOutcome.exn "could not subscribe") RunOutcome.interrupted).exitCode = 1 ∧
     (main envMain (SetupOutcome.exn "could not subscribe")
        RunOutcome.interrupted).listenerStarted = false) :=
  ⟨(C7_theorem envMainNoPid SetupOutcome.ok RunOutcome.interrupted "x").1 rfl,
   (C7_theorem envMainNoSid SetupOutcome.ok RunOutcome.interrupted "x").2.1 rfl rfl,
   (C7_theorem envMainNoTok SetupOutcome.ok RunOutcome.interrupted "x").2.2.1 rfl rfl rfl,
   (C7_theorem envMain SetupOutcome.ok RunOutcome.interrupted "stream died").2.2.2.1 rfl rfl,
   (C7_theorem envMain SetupOutcome.ok RunOutcome.interrupted
      "could not subscribe").2.2.2.2 rfl rfl⟩

end ShitPoster
